import Mathlib

/-!
Shallow embedding of the PII-Shield synchronization engine
(`src/pii_shield/`): TTL policy (`models.py`), database router
(`routers.py`), request gate (`middleware.py`), consumer retry loop
(`sync/consumer.py`), publisher entry point (`sync/publisher.py`) and the
cleanup sweep (`management/commands/cleanup_expired_data.py`).

Timestamps are modelled as natural numbers (seconds); Django settings are
modelled as nested optional records mirroring the nested
`settings.PII_SHIELD` dictionary and its `.get(key, default)` accesses.
-/

namespace PIIShield

/-! ## Configuration (`settings.PII_SHIELD`)

Each level of the settings dictionary is an optional record; a `none`
field models an absent key, and every read goes through `Option.getD`
with exactly the default used at the corresponding `.get` call site. -/

/-- The `SESSION` sub-dictionary of `settings.PII_SHIELD`. -/
structure SessionConfig where
  timeout : Option Nat := none
  refresh_threshold : Option Nat := none
deriving DecidableEq

/-- The `ADVANCED` sub-dictionary of `settings.PII_SHIELD`. -/
structure AdvancedConfig where
  allow_mixed_relations : Option Bool := none
  excluded_paths : Option (List String) := none
  waiting_view : Option String := none
  redirect_session_key : Option String := none
deriving DecidableEq

/-- The `SYNC` sub-dictionary of `settings.PII_SHIELD`. -/
structure SyncConfig where
  max_retries : Option Nat := none
  retry_delay : Option Nat := none
  backoff_factor : Option Nat := none
  batch_size : Option Nat := none
deriving DecidableEq

/-- The `settings.PII_SHIELD` dictionary.  `getattr(settings, "PII_SHIELD", \x7b\x7d)`
is modelled by an `Option PIIConfig` whose `none` case is the absent setting. -/
structure PIIConfig where
  MODE : Option String := none
  SESSION : Option SessionConfig := none
  ADVANCED : Option AdvancedConfig := none
  SYNC : Option SyncConfig := none
deriving DecidableEq

/-! ## TTL policy (`models.py`) -/

/-- `PIIModel.get_expiration_time` (models.py lines 17-24):
`pii_settings.get("SESSION", \x7b\x7d).get("timeout", 1800)` added to `timezone.now()`. -/
def get_expiration_time (cfg : Option PIIConfig) (now : Nat) : Nat :=
  now + ((((cfg.getD {}).SESSION).getD {}).timeout).getD 1800

/-- A persisted Replicated Entity row: the two `PIIModel` columns plus an
opaque bag of domain fields (`payload`) and the primary key `pk`. -/
structure EntityRec where
  pk : Nat
  session_id : String
  data_expires_at : Nat
  payload : Nat
deriving DecidableEq

/-- `PIIModel.refresh_expiration` (models.py lines 26-29): set
`data_expires_at` to `get_expiration_time()` and save with
`update_fields=["data_expires_at"]`, i.e. persist only that column for
this primary key.  Returns the updated instance and the updated store. -/
def refresh_expiration (cfg : Option PIIConfig) (now : Nat) (e : EntityRec)
    (store : List EntityRec) : EntityRec × List EntityRec :=
  let e' := { e with data_expires_at := get_expiration_time cfg now }
  (e', store.map fun r =>
    if r.pk = e.pk then { r with data_expires_at := e'.data_expires_at } else r)

/-! ## Database router (`routers.py`) -/

/-- A database object as seen by `PIIRouter.allow_relation`; all the router
inspects is whether it is an instance of `PIIModel`. -/
structure DBObj where
  is_pii : Bool
deriving DecidableEq

/-- The `ADVANCED.allow_mixed_relations` read in `routers.py` lines 47-50. -/
def allow_mixed_relations (cfg : Option PIIConfig) : Bool :=
  ((((cfg.getD {}).ADVANCED).getD {}).allow_mixed_relations).getD false

/-- `PIIRouter.allow_relation` (routers.py lines 35-60): `some true` /
`some false` model returning `True` / `False`, `none` models returning
`None` (defer to Django's default behavior). -/
def allow_relation (cfg : Option PIIConfig) (o1 o2 : DBObj) : Option Bool :=
  if o1.is_pii && o2.is_pii then some true
  else if allow_mixed_relations cfg then some true
  else if o1.is_pii || o2.is_pii then some false
  else none

/-! ## Request gate (`middleware.py`)

The Django session object has two distinct namespaces that the middleware
uses: its *items* (`request.session[key] = v`, `request.session.pop(key)`)
and its Python *attributes* (`getattr(request.session, name, default)`).
Both are modelled explicitly, because `_initiate_sync` writes the
sync-in-progress flag as an item while `process_request` reads it as an
attribute. -/

/-- A value stored in the session (the middleware stores a boolean flag and
a string path). -/
inductive SessVal where
  | bool (b : Bool)
  | str (s : String)
deriving DecidableEq

/-- Dictionary assignment `d[k] = v`. -/
def setItem (l : List (String × SessVal)) (k : String) (v : SessVal) :
    List (String × SessVal) :=
  (l.filter fun p => !(p.1 == k)) ++ [(k, v)]

/-- Dictionary lookup `d.get(k)`. -/
def getItem (l : List (String × SessVal)) (k : String) : Option SessVal :=
  (l.find? fun p => p.1 == k).map (·.2)

/-- Dictionary removal `d.pop(k, None)`. -/
def popItem (l : List (String × SessVal)) (k : String) :
    List (String × SessVal) :=
  l.filter fun p => !(p.1 == k)

/-- The request session: `session_key`, the session dictionary (`items`)
and the Python attributes of the session object (`attrs`).  A real Django
session object never has a `pii_sync_in_progress` attribute — item
assignment only updates the dictionary — but the embedding keeps both
namespaces so that the `getattr` read in `process_request` is modelled
exactly. -/
structure Session where
  sessionKey : String
  items : List (String × SessVal)
  attrs : List (String × SessVal)
deriving DecidableEq

/-- `getattr(request.session, "pii_sync_in_progress", False)`
(middleware.py line 40), with Python truthiness for the found value. -/
def getattrSyncFlag (s : Session) : Bool :=
  match getItem s.attrs "pii_sync_in_progress" with
  | some (SessVal.bool b) => b
  | some (SessVal.str v) => v != ""
  | none => false

/-- A row of the frontend store as seen by `_check_pii_data`: which model
class it belongs to, its `session_id` and its `data_expires_at`. -/
structure FrontRecord where
  model_id : Nat
  session_id : String
  data_expires_at : Nat
deriving DecidableEq

/-- `SESSION.refresh_threshold` read (middleware.py lines 85-87). -/
def refresh_threshold (cfg : Option PIIConfig) : Nat :=
  ((((cfg.getD {}).SESSION).getD {}).refresh_threshold).getD 300

/-- `ADVANCED.excluded_paths` read (middleware.py line 32). -/
def excluded_paths (cfg : Option PIIConfig) : List String :=
  ((((cfg.getD {}).ADVANCED).getD {}).excluded_paths).getD []

/-- `ADVANCED.waiting_view` read (middleware.py lines 41 and 58). -/
def waiting_view (cfg : Option PIIConfig) : Option String :=
  (((cfg.getD {}).ADVANCED).getD {}).waiting_view

/-- `ADVANCED.redirect_session_key` read (middleware.py lines 44-48). -/
def redirect_session_key (cfg : Option PIIConfig) : String :=
  ((((cfg.getD {}).ADVANCED).getD {}).redirect_session_key).getD
    "redirect_after_sync"

/-- `PIIShieldMiddleware._check_pii_data` (middleware.py lines 70-114):
with no registered models return `True`; otherwise every registered model
must have a record for this session, and no such record may expire before
`now + refresh_threshold`.  The `except` clause returns `False`; the
embedding is a total function, so the failure source (a raising ORM) does
not arise. -/
def check_pii_data (models : List Nat) (store : List FrontRecord)
    (sessionKey : String) (now threshold : Nat) : Bool :=
  if models.isEmpty then true
  else models.all fun m =>
    (store.any fun r => r.model_id == m && r.session_id == sessionKey)
    && !(store.any fun r =>
          r.model_id == m && r.session_id == sessionKey
          && decide (r.data_expires_at < now + threshold))

/-- `PIIShieldMiddleware._initiate_sync` (middleware.py lines 116-139):
set the `pii_sync_in_progress` session *item* to `True`, then call
`sync_data`; if that call raises (`syncOk = false`), pop the item again.
The cross-process `sync_data` effect happens on the backend store and is
not part of the session state. -/
def initiate_sync (syncOk : Bool) (s : Session) : Session :=
  let s1 := { s with items := setItem s.items "pii_sync_in_progress" (SessVal.bool true) }
  if syncOk then s1
  else { s1 with items := popItem s1.items "pii_sync_in_progress" }

/-- Outcome of `process_request`: `proceed` models returning `None`,
`redirect v` models returning `redirect(v)`. -/
inductive MWAction where
  | proceed
  | redirect (view : String)
deriving DecidableEq

/-- An inbound request: authentication status, path and session. -/
structure Request where
  authenticated : Bool
  path : String
  session : Session
deriving DecidableEq

/-- `PIIShieldMiddleware.process_request` (middleware.py lines 22-68).
`rev` is Django's `reverse`, mapping a view name to its URL path.
Returns the action together with the session after the call. -/
def process_request (cfg : Option PIIConfig) (rev : String → String)
    (models : List Nat) (store : List FrontRecord) (now : Nat)
    (syncOk : Bool) (req : Request) : MWAction × Session :=
  if !req.authenticated then (MWAction.proceed, req.session)
  else if (excluded_paths cfg).any (fun p => req.path.startsWith p) then
    (MWAction.proceed, req.session)
  else if getattrSyncFlag req.session then
    match waiting_view cfg with
    | some wv =>
      if req.path != rev wv then
        (MWAction.redirect wv,
         { req.session with
             items := setItem req.session.items (redirect_session_key cfg)
                        (SessVal.str req.path) })
      else (MWAction.proceed, req.session)
    | none => (MWAction.proceed, req.session)
  else if !(check_pii_data models store req.session.sessionKey now
              (refresh_threshold cfg)) then
    let s1 := initiate_sync syncOk req.session
    match waiting_view cfg with
    | some wv =>
      (MWAction.redirect wv,
       { s1 with
           items := setItem s1.items (redirect_session_key cfg)
                      (SessVal.str req.path) })
    | none => (MWAction.proceed, s1)
  else (MWAction.proceed, req.session)

/-! ## Consumer (`sync/consumer.py`) -/

/-- The payload of a Redis pubsub message after the byte decode: either a
JSON document that deserializes to a list of model instances, or a blob on
which `serializers.deserialize` raises. -/
inductive RPayload where
  | objs (l : List EntityRec)
  | malformed
deriving DecidableEq

/-- A Redis pubsub event `\x7btype, channel, data\x7d`; `none` at the use sites
models a `message` that is `None` or not a dict. -/
structure RMessage where
  mtype : String
  data : Option RPayload
deriving DecidableEq

/-- `obj.save()` on the frontend store: overwrite the row with the same
primary key, or insert. -/
def dbSave (store : List EntityRec) (e : EntityRec) : List EntityRec :=
  if store.any (fun r => r.pk == e.pk) then
    store.map fun r => if r.pk == e.pk then e else r
  else store ++ [e]

/-- `Consumer._process_message` (consumer.py lines 86-129).  The whole
body is wrapped in `try/except Exception: return False`, so the function
*returns* a boolean and never raises — hence the result is always
`Except.ok`.  Invalid or non-`"message"` events, missing data and
deserialization failures all return `False`; a well-formed message saves
every deserialized object (one transaction) and returns `True`. -/
def process_message (store : List EntityRec) (m : Option RMessage) :
    Except Unit (Bool × List EntityRec) :=
  Except.ok <|
    match m with
    | none => (false, store)
    | some msg =>
      if msg.mtype != "message" then (false, store)
      else
        match msg.data with
        | none => (false, store)
        | some RPayload.malformed => (false, store)
        | some (RPayload.objs l) => (true, l.foldl dbSave store)

/-- `SYNC.max_retries` read (consumer.py line 138). -/
def sync_max_retries (cfg : Option PIIConfig) : Nat :=
  ((((cfg.getD {}).SYNC).getD {}).max_retries).getD 3

/-- `SYNC.retry_delay` read (consumer.py line 139). -/
def sync_retry_delay (cfg : Option PIIConfig) : Nat :=
  ((((cfg.getD {}).SYNC).getD {}).retry_delay).getD 1

/-- `SYNC.backoff_factor` read (consumer.py line 140). -/
def sync_backoff_factor (cfg : Option PIIConfig) : Nat :=
  ((((cfg.getD {}).SYNC).getD {}).backoff_factor).getD 2

/-- Final state of the per-message retry loop: the `success` flag, the
`retry_count`, the list of sleep durations performed (in order), and the
frontend store. -/
structure RetryResult where
  success : Bool
  retry_count : Nat
  sleeps : List Nat
  store : List EntityRec
deriving DecidableEq

/-- The per-message `while` loop of `Consumer._listen` (consumer.py lines
148-167), fuel-indexed: `none` means the loop has not exited within `fuel`
iterations.  Each iteration re-evaluates
`success = self._process_message(message)` inside `try`; the `except`
branch (increment `retry_count`, sleep `current_delay`, multiply the delay
by the backoff factor) corresponds to the `Except.error` case. -/
def retryLoop (max_retries backoff_factor : Nat) (msg : Option RMessage) :
    Nat → Bool → Nat → Nat → List Nat → List EntityRec → Option RetryResult
  | 0, _, _, _, _, _ => none
  | fuel + 1, success, rc, delay, sleeps, store =>
    if !success && decide (rc < max_retries) then
      match process_message store msg with
      | Except.ok (b, store') =>
        retryLoop max_retries backoff_factor msg fuel b rc delay sleeps store'
      | Except.error _ =>
        if rc + 1 < max_retries then
          retryLoop max_retries backoff_factor msg fuel success (rc + 1)
            (delay * backoff_factor) (sleeps ++ [delay]) store
        else
          retryLoop max_retries backoff_factor msg fuel success (rc + 1)
            delay sleeps store
    else some ⟨success, rc, sleeps, store⟩

/-- One iteration of the `for message in self.pubsub.listen()` body for a
given message (consumer.py lines 143-173): run the retry loop from the
initial state `success = False`, `retry_count = 0`,
`current_delay = retry_delay`, with settings-derived parameters. -/
def listen_one_message (cfg : Option PIIConfig) (msg : Option RMessage)
    (fuel : Nat) (store : List EntityRec) : Option RetryResult :=
  retryLoop (sync_max_retries cfg) (sync_backoff_factor cfg) msg fuel
    false 0 (sync_retry_delay cfg) [] store

/-- The thread/running state of the `Consumer` relevant to `start`. -/
structure ConsumerState where
  running : Bool
deriving DecidableEq

/-- `Consumer.start` (consumer.py lines 180-202): refuse unless
`MODE` (default `"frontend"`) equals `"frontend"`, refuse if already
running, else set the running flag and spawn the listener. -/
def consumer_start (cfg : Option PIIConfig) (c : ConsumerState) :
    Bool × ConsumerState :=
  if ((cfg.getD {}).MODE).getD "frontend" != "frontend" then (false, c)
  else if c.running then (false, c)
  else (true, { c with running := true })

/-! ## Publisher (`sync/publisher.py`) -/

/-- A relational field descriptor as returned by
`instance._meta.get_fields()`, with the ORM flags tested by `sync_data`
and the related instances its accessor yields: `targets` for a collection
accessor (`manager.all()`), `target` for a single related instance
(`None` when the foreign key is null). -/
structure FieldEdge where
  is_relation : Bool
  concrete : Bool
  one_to_many : Bool
  many_to_many : Bool
  many_to_one : Bool
  one_to_one : Bool
  targets : List Nat
  target : Option Nat
deriving DecidableEq

/-- A backend row as written and published by `sync_data`: instance id
plus the `session_id` and `data_expires_at` stamped on it. -/
structure SyncedRec where
  id : Nat
  session_id : String
  data_expires_at : Nat
deriving DecidableEq

/-- Backend-side effect state of `sync_data`: rows saved to the secure
store and instances published on the bus, both in call order. -/
structure SyncState where
  store : List SyncedRec
  published : List SyncedRec
deriving DecidableEq

/-- Lines 199-209 of publisher.py for one instance: stamp `session_id`
and `data_expires_at`, save, publish. -/
def persistPublish (sid : String) (exp : Nat) (st : SyncState) (i : Nat) :
    SyncState :=
  let r : SyncedRec := ⟨i, sid, exp⟩
  { store := st.store ++ [r], published := st.published ++ [r] }

/-- Lines 214-234 of publisher.py for one field: which instances the
recursive `sync_data` call receives, or `none` when the field is skipped.
Only fields with `is_relation and concrete` are considered; collection
relations recurse on `manager.all()`, single relations recurse on the
related instance when it is truthy. -/
def relatedCalls (e : FieldEdge) : Option (List Nat) :=
  if e.is_relation && e.concrete then
    if e.one_to_many || e.many_to_many then some e.targets
    else if e.many_to_one || e.one_to_one then e.target.map (fun t => [t])
    else none
  else none

/-- The instance-processing loop of `sync_data` (publisher.py lines
197-234), by recursion on `depth`: save and publish each instance, and
when `include_related and depth > 0` recurse with `depth - 1` on each
field's related instances.  `adj` gives each instance's relational
fields.  The recursive call in the source re-enters `sync_data`, whose
mode guard passes again because the mode is unchanged. -/
def syncLevel (adj : Nat → List FieldEdge) (include_related : Bool)
    (sid : String) (exp : Nat) :
    Nat → List Nat → SyncState → SyncState
  | 0, ids, st => ids.foldl (persistPublish sid exp) st
  | d + 1, ids, st =>
    ids.foldl
      (fun s i =>
        let s1 := persistPublish sid exp s i
        if include_related then
          (adj i).foldl
            (fun s2 e =>
              match relatedCalls e with
              | some tgts => syncLevel adj include_related sid exp d tgts s2
              | none => s2) s1
        else s1) st

/-- `sync_data` (publisher.py lines 165-236): refuse (return `False`,
state unchanged) unless `MODE` (default `"backend"`) equals `"backend"`;
otherwise stamp, save and publish every instance (single instances are
wrapped into a one-element list by the source, so the embedding takes a
list of instance ids), walking relations per `syncLevel`, and return
`True`. -/
def sync_data (cfg : Option PIIConfig) (adj : Nat → List FieldEdge)
    (include_related : Bool) (depth : Nat) (ids : List Nat) (sid : String)
    (now : Nat) (st : SyncState) : Bool × SyncState :=
  if ((cfg.getD {}).MODE).getD "backend" != "backend" then (false, st)
  else
    (true,
     syncLevel adj include_related sid (get_expiration_time cfg now) depth ids st)

/-! ## Cleanup sweep (`management/commands/cleanup_expired_data.py`) -/

/-- A row of one model's table as seen by the cleanup command: primary key
`rid` (`id`) and `data_expires_at`. -/
structure CRecord where
  rid : Nat
  data_expires_at : Nat
deriving DecidableEq

/-- Ascending order on `data_expires_at`, the `order_by('data_expires_at')`
of the expired-records query. -/
def crLE (a b : CRecord) : Prop := a.data_expires_at ≤ b.data_expires_at

instance : DecidableRel crLE := fun a b => Nat.decLe a.data_expires_at b.data_expires_at

/-- The queryset `model.objects.filter(data_expires_at__lt=now)
.order_by('data_expires_at')[:batch_size]` (cleanup command lines 84-86). -/
def expiredBatch (store : List CRecord) (now batch_size : Nat) :
    List CRecord :=
  ((store.filter fun r => decide (r.data_expires_at < now)).insertionSort
      crLE).take batch_size

/-- The per-model `while True` loop of the cleanup command (lines 82-119),
fuel-indexed: `none` means the loop has not exited within `fuel`
iterations.  Each iteration fetches a batch of expired records, stops on
an empty batch, deletes the batch by id unless `dry_run` (in dry-run mode
only the count is accumulated), and stops when the fetched batch was
smaller than `batch_size`.  Returns the final store and the accumulated
deleted/counted total for this model. -/
def cleanupLoop (dry_run : Bool) (batch_size now : Nat) :
    Nat → List CRecord → Nat → Option (List CRecord × Nat)
  | 0, _, _ => none
  | fuel + 1, store, acc =>
    let expired := expiredBatch store now batch_size
    let count := expired.length
    if count = 0 then some (store, acc)
    else
      let ids := expired.map (·.rid)
      let store' :=
        if dry_run then store else store.filter fun r => !(ids.contains r.rid)
      let deleted := if dry_run then count else store.length - store'.length
      if count < batch_size then some (store', acc + deleted)
      else cleanupLoop dry_run batch_size now fuel store' (acc + deleted)

/-! ## Concrete scenario inputs used by the theorems -/

/-- Settings with `ADVANCED.allow_mixed_relations = True`. -/
def cfgMixed : Option PIIConfig :=
  some { ADVANCED := some { allow_mixed_relations := some true } }

/-- Settings with a configured waiting view named `"wait"`. -/
def cfgGate : Option PIIConfig :=
  some { ADVANCED := some { waiting_view := some "wait" } }

/-- The session after a first gated request at path `"/home"` with no data
in the frontend store: `_initiate_sync` has marked it and the original
path has been stored for the post-sync redirect. -/
def gateSession1 : Session :=
  (process_request cfgGate (fun v => v) [0] [] 0 true
    ⟨true, "/home", ⟨"sess", [], []⟩⟩).2

/-- A pubsub control event (`type = "subscribe"`): `_process_message`
returns `False` on it, as it does on any message whose processing fails. -/
def failingMsg : Option RMessage := some ⟨"subscribe", none⟩

/-- Instance 1 has a single reverse one-to-many field pointing at
instance 2.  In the ORM a reverse relation (`ForeignObjectRel`) has
`concrete = False` — it has no database column — so the field descriptor
is `is_relation = True, concrete = False, one_to_many = True`. -/
def adjO2M : Nat → List FieldEdge := fun i =>
  if i = 1 then [⟨true, false, true, false, false, false, [2], none⟩] else []

/-- One expired record (expired at 0, observed at `now = 1`); `N = 1`
expired rows and `M = 0` live rows. -/
def dryStore : List CRecord := [⟨0, 0⟩]

/-! ## Theorems -/

/-- Claim C8: for every configured `SESSION.timeout` `T`,
`get_expiration_time` returns exactly `now + T`, and when no
`SESSION.timeout` is configured (the key, the `SESSION` dictionary or the
whole `PII_SHIELD` setting is absent) it returns exactly `now + 1800`. -/
theorem get_expiration_time_exact (now T : Nat) (cfg : PIIConfig)
    (s : SessionConfig) :
    (cfg.SESSION = some s → s.timeout = some T →
      get_expiration_time (some cfg) now = now + T)
    ∧ (cfg.SESSION = some s → s.timeout = none →
      get_expiration_time (some cfg) now = now + 1800)
    ∧ (cfg.SESSION = none → get_expiration_time (some cfg) now = now + 1800)
    ∧ get_expiration_time none now = now + 1800 := by
  refine ⟨fun h1 h2 => ?_, fun h1 h2 => ?_, fun h1 => ?_, rfl⟩
  · simp [get_expiration_time, h1, h2]
  · simp [get_expiration_time, h1, h2]
  · simp [get_expiration_time, h1]

/-- Witness for C8 at `now = 100`, `T = 60` and at absent settings. -/
theorem get_expiration_time_exact_witness :
    get_expiration_time (some { SESSION := some { timeout := some 60 } }) 100
      = 160
    ∧ get_expiration_time none 100 = 1900 :=
  ⟨(get_expiration_time_exact 100 60 { SESSION := some { timeout := some 60 } }
      { timeout := some 60 }).1 rfl rfl,
   (get_expiration_time_exact 100 60 {} {}).2.2.2⟩

/-- Claim C7: under the invariant that the stored `data_expires_at` was
itself derived as `get_expiration_time` at a strictly earlier time `now0`
(with the same settings), `refresh_expiration` strictly increases the
instance's `data_expires_at`, leaves its `session_id`, domain fields and
primary key unchanged, and persists only the `data_expires_at` column:
every row keeps its `session_id`, `payload` and `pk`, rows with a
different primary key are completely unchanged, and rows with this
primary key get exactly the new expiration value. -/
theorem refresh_expiration_strict_increase_frame (cfg : Option PIIConfig)
    (now now0 : Nat) (e : EntityRec) (store : List EntityRec)
    (hprev : e.data_expires_at = get_expiration_time cfg now0)
    (ht : now0 < now) :
    e.data_expires_at < (refresh_expiration cfg now e store).1.data_expires_at
    ∧ (refresh_expiration cfg now e store).1.session_id = e.session_id
    ∧ (refresh_expiration cfg now e store).1.payload = e.payload
    ∧ (refresh_expiration cfg now e store).1.pk = e.pk
    ∧ ∀ i : Nat,
        ((refresh_expiration cfg now e store).2[i]?.map EntityRec.session_id
          = store[i]?.map EntityRec.session_id)
        ∧ ((refresh_expiration cfg now e store).2[i]?.map EntityRec.payload
          = store[i]?.map EntityRec.payload)
        ∧ ((refresh_expiration cfg now e store).2[i]?.map EntityRec.pk
          = store[i]?.map EntityRec.pk)
        ∧ (∀ r ∈ store[i]?, r.pk ≠ e.pk →
            (refresh_expiration cfg now e store).2[i]? = some r)
        ∧ (∀ r ∈ store[i]?, r.pk = e.pk →
            (refresh_expiration cfg now e store).2[i]?
              = some { r with data_expires_at := get_expiration_time cfg now }) := by
  refine ⟨?_, rfl, rfl, rfl, fun i => ?_⟩
  · have hX : get_expiration_time cfg now
        = now + ((((cfg.getD {}).SESSION).getD {}).timeout).getD 1800 := rfl
    have hX0 : get_expiration_time cfg now0
        = now0 + ((((cfg.getD {}).SESSION).getD {}).timeout).getD 1800 := rfl
    have : (refresh_expiration cfg now e store).1.data_expires_at
        = get_expiration_time cfg now := rfl
    rw [this, hprev, hX, hX0]
    omega
  · have hmap : (refresh_expiration cfg now e store).2[i]?
        = store[i]?.map (fun r =>
            if r.pk = e.pk
            then { r with data_expires_at := get_expiration_time cfg now }
            else r) := by
      simp [refresh_expiration]
    rcases h : store[i]? with _ | r
    · simp [hmap, h]
    · by_cases hpk : r.pk = e.pk <;>
        simp [hmap, h, hpk]

/-- Witness for C7: settings absent, previous refresh at time 0, new
refresh at time 1. -/
theorem refresh_expiration_strict_increase_frame_witness :
    (⟨1, "s", 1800, 5⟩ : EntityRec).data_expires_at
      < (refresh_expiration none 1 ⟨1, "s", 1800, 5⟩
          [⟨1, "s", 1800, 5⟩, ⟨2, "t", 7, 9⟩]).1.data_expires_at :=
  (refresh_expiration_strict_increase_frame none 1 0 ⟨1, "s", 1800, 5⟩
    [⟨1, "s", 1800, 5⟩, ⟨2, "t", 7, 9⟩] (by decide) (by decide)).1

/-- Counterexample to claim C5: with `allow_mixed_relations` set, a pair
of two non-PII objects gets `True` (relation allowed), not the deferral
`None` the claim requires regardless of the flag. -/
theorem allow_relation_nonpii_mixed_counterexample :
    allow_relation cfgMixed ⟨false⟩ ⟨false⟩ = some true
    ∧ allow_relation cfgMixed ⟨false⟩ ⟨false⟩ ≠ none := by decide

/-- Claim C5 as amended: two PII objects are always allowed; a mixed pair
is allowed exactly when `allow_mixed_relations` is set; a pair of two
non-PII objects defers to default behavior only when the flag is unset —
when the flag is set the router returns allowed instead of deferring. -/
theorem allow_relation_cases (cfg : Option PIIConfig) (o1 o2 : DBObj) :
    allow_relation cfg o1 o2 =
      if o1.is_pii && o2.is_pii then some true
      else if o1.is_pii || o2.is_pii then some (allow_mixed_relations cfg)
      else if allow_mixed_relations cfg then some true
      else none := by
  obtain ⟨a⟩ := o1
  obtain ⟨b⟩ := o2
  cases a <;> cases b <;> cases h : allow_mixed_relations cfg <;>
    simp [allow_relation, h]

/-- Claim C10: in a process with no `PII_SHIELD` settings at all, the two
role guards default to different roles and both pass: `sync_data`
defaults `MODE` to `"backend"` and proceeds (persisting and publishing),
while `Consumer.start` defaults `MODE` to `"frontend"` and also proceeds
(starting the listener). -/
theorem unconfigured_mode_accepted_as_both_roles :
    sync_data none (fun _ => []) false 1 [7] "sess" 0 ⟨[], []⟩
      = (true, ⟨[⟨7, "sess", 1800⟩], [⟨7, "sess", 1800⟩]⟩)
    ∧ consumer_start none ⟨false⟩ = (true, ⟨true⟩) := by
  constructor
  · rfl
  · rfl

/-- Claim C2, evaluated at its failing input: the session was marked
sync-in-progress by `_initiate_sync` (the `pii_sync_in_progress` session
*item* is `True`), the next authenticated, non-excluded request is for
the waiting endpoint itself, and the data is still missing — the claim
says this request proceeds, but `process_request` reads the flag with
`getattr`, which never sees the session item, falls through to the
freshness check and redirects the waiting endpoint to itself (after
re-initiating the sync). -/
theorem gate_waiting_request_redirected_despite_marked_session :
    getItem gateSession1.items "pii_sync_in_progress" = some (SessVal.bool true)
    ∧ (process_request cfgGate (fun v => v) [0] [] 0 true
        ⟨true, "wait", gateSession1⟩).1 = MWAction.redirect "wait"
    ∧ (process_request cfgGate (fun v => v) [0] [] 0 true
        ⟨true, "wait", gateSession1⟩).1 ≠ MWAction.proceed := by decide

/-- Claim C3, evaluated at its failing input: the session carries the
`pii_sync_in_progress` item set by `_initiate_sync`, and the next request
finds fresh data for every registered type (one record for model 0 with
`data_expires_at = 10000`, checked at `now = 0` against the default
threshold 300), so the freshness check succeeds and the request proceeds
— but `process_request` returns the session unchanged: no code path
clears the flag on a successful check, so the session stays marked. -/
theorem gate_flag_not_cleared_on_fresh_data :
    getItem gateSession1.items "pii_sync_in_progress" = some (SessVal.bool true)
    ∧ process_request cfgGate (fun v => v) [0] [⟨0, "sess", 10000⟩] 0 true
        ⟨true, "/home", gateSession1⟩ = (MWAction.proceed, gateSession1)
    ∧ getItem (process_request cfgGate (fun v => v) [0] [⟨0, "sess", 10000⟩] 0
        true ⟨true, "/home", gateSession1⟩).2.items "pii_sync_in_progress"
      = some (SessVal.bool true) := by decide

/-- Claim C6, evaluated at its failing input: instance 1 has a
one-to-many relation to instance 2 and `sync_data` is called with
`include_related = True` and `depth = 1` — the claim says instance 2 is
passed to the recursive `sync_data` call, but the field fails the
`field.is_relation and field.concrete` test (a reverse one-to-many field
has no column, so `concrete` is `False`) and only instance 1 is synced. -/
theorem sync_data_skips_one_to_many :
    ((sync_data none adjO2M true 1 [1] "s" 0 ⟨[], []⟩).2.store.map
        SyncedRec.id = [1])
    ∧ ¬ (2 ∈ (sync_data none adjO2M true 1 [1] "s" 0 ⟨[], []⟩).2.store.map
        SyncedRec.id) := by decide

/-- Helper for C1: on a message whose processing fails,
`_process_message` *returns* `False` (it catches its own exceptions), so
the `while` loop's state never changes: `retry_count` stays 0, no sleep
happens, and the loop body repeats identically — for every fuel bound the
loop has not exited. -/
theorem retryLoop_failing_message_stuck (fuel delay : Nat) (sleeps : List Nat)
    (store : List EntityRec) :
    retryLoop 3 2 failingMsg fuel false 0 delay sleeps store = none := by
  induction fuel with
  | zero => rfl
  | succ f ih =>
    simpa [retryLoop, process_message, failingMsg] using ih

/-- Claim C1, refuted: for a message whose processing fails (here the
initial `subscribe` control event, but any message on which
`_process_message` returns `False` behaves the same), the per-message
retry loop of `Consumer._listen` never terminates, for every fuel bound —
`retry_count` is only incremented in the `except` branch, which is
unreachable because `_process_message` catches all exceptions and returns
`False` instead of raising.  No backoff sleep ever happens and the
message is never dropped, contradicting the claimed at-most-`max_retries`
reprocessing. -/
theorem consumer_retry_loop_diverges (fuel : Nat) :
    listen_one_message none failingMsg fuel [] = none :=
  retryLoop_failing_message_stuck fuel 1 [] []

/-- Helper for C4: one iteration of the dry-run loop on `dryStore` with
`batch_size = 1` fetches the same single expired record, counts it, does
not delete it, and — because the batch is not smaller than `batch_size` —
loops again on the identical store. -/
theorem cleanupLoop_dry_stuck (fuel : Nat) : ∀ acc : Nat,
    cleanupLoop true 1 1 fuel dryStore acc = none := by
  induction fuel with
  | zero => exact fun acc => rfl
  | succ f ih => exact fun acc => ih (acc + 1)

/-- Claim C4, refuted on its dry-run part at `batch_size = N`: with `N = 1`
expired record, `M = 0` live records and `batch_size = 1 ≥ N`, the
dry-run sweep never terminates (for every fuel bound the per-type loop
has not exited): dry-run skips the deletion, so the fetched batch never
becomes smaller than `batch_size` and the stop condition is never
reached (while the reported count grows without bound). -/
theorem cleanup_dry_run_diverges (fuel : Nat) :
    cleanupLoop true 1 1 fuel dryStore 0 = none :=
  cleanupLoop_dry_stuck fuel 0

/-- Helper for C9: folding `persistPublish` over a list of instance ids
appends the stamped rows to the store and to the published list. -/
theorem foldl_persistPublish (sid : String) (exp : Nat) (ids : List Nat) :
    ∀ st : SyncState,
      ids.foldl (persistPublish sid exp) st =
        ⟨st.store ++ ids.map (fun i => ⟨i, sid, exp⟩),
         st.published ++ ids.map (fun i => ⟨i, sid, exp⟩)⟩ := by
  induction ids with
  | nil => intro st; simp
  | cons i tl ih =>
    intro st
    rw [List.foldl_cons, ih (persistPublish sid exp st i)]
    simp [persistPublish]

/-- Helper for C9: with `include_related = False` the relation walk is
skipped at every depth and `syncLevel` just saves and publishes each
instance in order. -/
theorem syncLevel_no_related (adj : Nat → List FieldEdge) (sid : String)
    (exp : Nat) (d : Nat) (ids : List Nat) (st : SyncState) :
    syncLevel adj false sid exp d ids st =
      ⟨st.store ++ ids.map (fun i => ⟨i, sid, exp⟩),
       st.published ++ ids.map (fun i => ⟨i, sid, exp⟩)⟩ := by
  cases d with
  | zero => simpa using foldl_persistPublish sid exp ids st
  | succ d =>
    have : syncLevel adj false sid exp (d + 1) ids st =
        ids.foldl (persistPublish sid exp) st := by
      simp [syncLevel]
    rw [this, foldl_persistPublish]

/-- Claim C9: when the configured `MODE` (default `"backend"`) is not the
source role, `sync_data` returns `False` with the backend store and the
published list unchanged; when it is the source role, `sync_data` returns
`True` after persisting and publishing every given instance, stamped with
the session id and the settings-derived expiration. -/
theorem sync_data_role_guard (cfg : Option PIIConfig)
    (adj : Nat → List FieldEdge) (d : Nat) (ids : List Nat) (sid : String)
    (now : Nat) (st : SyncState) :
    (((cfg.getD {}).MODE).getD "backend" ≠ "backend" →
      sync_data cfg adj false d ids sid now st = (false, st))
    ∧ (((cfg.getD {}).MODE).getD "backend" = "backend" →
      sync_data cfg adj false d ids sid now st =
        (true,
         ⟨st.store ++ ids.map
            (fun i => ⟨i, sid, get_expiration_time cfg now⟩),
          st.published ++ ids.map
            (fun i => ⟨i, sid, get_expiration_time cfg now⟩)⟩)) := by
  constructor
  · intro h
    simp [sync_data, h]
  · intro h
    simp [sync_data, h, syncLevel_no_related]

/-- Witness for C9: a `"frontend"`-mode process refuses with the state
unchanged; a `"backend"`-mode process persists and publishes instance 3. -/
theorem sync_data_role_guard_witness :
    sync_data (some { MODE := some "frontend" }) (fun _ => []) false 1 [3]
        "s" 0 ⟨[], []⟩ = (false, ⟨[], []⟩)
    ∧ sync_data (some { MODE := some "backend" }) (fun _ => []) false 1 [3]
        "s" 0 ⟨[], []⟩ = (true, ⟨[⟨3, "s", 1800⟩], [⟨3, "s", 1800⟩]⟩) :=
  ⟨(sync_data_role_guard (some { MODE := some "frontend" }) (fun _ => []) 1
      [3] "s" 0 ⟨[], []⟩).1 (by decide),
   (sync_data_role_guard (some { MODE := some "backend" }) (fun _ => []) 1
      [3] "s" 0 ⟨[], []⟩).2 rfl⟩

end PIIShield
